import Mathlib

/-!
Shallow embedding of the ISV computation engine of `ISV_APP.py`
(soil-moisture drought severity index).

The pandas dataframe is modelled as a list of rows.  A raw row carries the
result of `pd.to_datetime(..., errors='coerce').dt.normalize()` — an
`Option Date` (`none` is NaT, the coerced unparseable date; the time of day
is already stripped, so `Date` is a calendar date) — and one optional
rational moisture value per depth column `U20`, `U40`, `U60` (`none` is NaN,
a missing reading; pandas `NaN < c` is `False`).  Column presence is a
property of the whole dataframe (`'U20' in df.columns`), so `DF` carries one
flag per depth column.  Real-valued ISV arithmetic is modelled over `ℝ`.
-/

/-- A normalized calendar date (time of day already stripped). -/
structure Date where
  year : Int
  month : Nat
  day : Nat
deriving DecidableEq

/-- Serial day number of a calendar date (days since an arbitrary fixed
epoch, civil-calendar algorithm); pandas `Timestamp` subtraction of two
normalized dates yields exactly the difference of these numbers, in days. -/
def epochDay (d : Date) : Int :=
  let y : Int := if d.month ≤ 2 then d.year - 1 else d.year
  let era : Int := (if 0 ≤ y then y else y - 399) / 400
  let yoe : Int := y - era * 400
  let mp : Int := ((d.month : Int) + 9) % 12
  let doy : Int := (153 * mp + 2) / 5 + (d.day : Int) - 1
  let doe : Int := yoe * 365 + yoe / 4 - yoe / 100 + doy
  era * 146097 + doe - 719468

/-- One raw input row after date parsing: `data = none` is NaT (the
`errors='coerce'` result for an unparseable date), `u20/u40/u60 = none` is a
NaN moisture cell. -/
structure Row where
  data : Option Date
  u20 : Option ℚ
  u40 : Option ℚ
  u60 : Option ℚ
deriving DecidableEq

/-- A raw dataframe: rows plus presence of each depth column. -/
structure DF where
  rows : List Row
  hasU20 : Bool
  hasU40 : Bool
  hasU60 : Bool
deriving DecidableEq

/-- A row after `agrupar_por_data` added the `Mes`, `Ano`, `Periodo`,
`AnoRef` columns.  `mes`/`ano` are `none` on a NaT date (pandas NaN). -/
structure XRow extends Row where
  mes : Option Nat
  ano : Option Int
  periodo : String
  anoRef : Option Int
deriving DecidableEq

/-- A dataframe after `agrupar_por_data`. -/
structure XDF where
  rows : List XRow
  hasU20 : Bool
  hasU40 : Bool
  hasU60 : Bool
deriving DecidableEq

/-- The months classified as the wet period (`'Umido'`):
`df['Mes'].isin([10, 11, 12, 1, 2, 3])`. -/
def mesesUmido : List Nat := [10, 11, 12, 1, 2, 3]

/-- The months whose cycle year is the previous calendar year:
`df['Mes'].isin([1, 2, 3])`. -/
def mesesAnoAnterior : List Nat := [1, 2, 3]

/-- Row-wise part of `agrupar_por_data`: derive `Mes`, `Ano`, `Periodo`,
`AnoRef`.  On a NaT date `Mes` is NaN, `isin` is `False`, so `Periodo`
becomes `'Seco'` and `AnoRef` stays NaN. -/
def agruparRow (r : Row) : XRow :=
  { toRow := r
    mes := r.data.map Date.month
    ano := r.data.map Date.year
    periodo :=
     (match r.data with
      | some d => if d.month ∈ mesesUmido then "Umido" else "Seco"
      | none => "Seco")
    anoRef :=
     (match r.data with
      | some d => some (if d.month ∈ mesesAnoAnterior then d.year - 1 else d.year)
      | none => none) }

/-- Embedding of `agrupar_por_data`: add the month / year / period / cycle-year columns
to every row.  (Date parsing and normalization sit at the input boundary:
`Row.data` is already the coerced, normalized parse result.) -/
def agrupar_por_data (df : DF) : XDF :=
  ⟨df.rows.map agruparRow, df.hasU20, df.hasU40, df.hasU60⟩

/-- The fixed depth list `profundidades = [20, 40, 60]`. -/
def profundidades : List Nat := [20, 40, 60]

/-- The fixed period list `periodos = ['Seco', 'Umido']`. -/
def periodos : List String := ["Seco", "Umido"]

/-- Column-presence test `u_col in df.columns` for `u_col = f'U{prof}'`. -/
def colPresente (xdf : XDF) (prof : Nat) : Bool :=
  if prof = 20 then xdf.hasU20
  else if prof = 40 then xdf.hasU40
  else if prof = 60 then xdf.hasU60
  else false

/-- The moisture cell of row `r` in column `U{prof}`. -/
def Row.getU (r : Row) (prof : Nat) : Option ℚ :=
  if prof = 20 then r.u20
  else if prof = 40 then r.u40
  else if prof = 60 then r.u60
  else none

/-- The `Evento` column: `df_periodo[u_col] < umidade_limite`.  A NaN cell
compares as `False` in pandas. -/
def eventoFlag (prof : Nat) (umidade_limite : ℚ) (x : XRow) : Bool :=
  match x.toRow.getU prof with
  | some u => decide (u < umidade_limite)
  | none => false

/-- Tail of the `Consecutivo` numbering: given the previous row's flag and
group id, each row keeps the id when its flag equals the previous flag and
takes id + 1 otherwise. -/
def marcarConsecutivoAux (f : α → Bool) (prevFlag : Bool) (gid : Nat) :
    List α → List (α × Bool × Nat)
  | [] => []
  | a :: rest =>
      let fa := f a
      let gid2 := if fa = prevFlag then gid else gid + 1
      (a, fa, gid2) :: marcarConsecutivoAux f fa gid2 rest

/-- The `Consecutivo` column:
`(df['Evento'] != df['Evento'].shift()).cumsum()`.  The first row compares
unequal to the shifted-in NaN, so numbering starts at 1 and increments at
every flag flip. -/
def marcarConsecutivo (f : α → Bool) : List α → List (α × Bool × Nat)
  | [] => []
  | a :: rest => (a, f a, 1) :: marcarConsecutivoAux f (f a) 1 rest

/-- Embedding of `groupby('Consecutivo').filter(lambda x: len(x) >= dias_consecutivos and
x['Evento'].all())`: keep, in original order, the rows whose `Consecutivo`
group has at least `dias` rows and whose flags are all true. -/
def filtrarConsecutivos (dias : Nat) (marcado : List (α × Bool × Nat)) :
    List (α × Bool × Nat) :=
  marcado.filter fun t =>
    let grupo := marcado.filter fun s => decide (s.2.2 = t.2.2)
    decide (dias ≤ grupo.length) && grupo.all fun s => s.2.1

/-- One entry of the `eventos` list built by
`detectar_eventos_baixa_umidade`: the depth, the period, and the filtered
rows (with their `Evento` flag and `Consecutivo` id). -/
structure Evento where
  prof : Nat
  periodo : String
  rows : List (XRow × Bool × Nat)
deriving DecidableEq

/-- Embedding of `detectar_eventos_baixa_umidade`: for every present depth column and
each of the two periods, filter the rows of that period (all cycle years
pooled), flag them against the threshold, number consecutive equal flags,
and keep the qualifying groups.  An entry is appended even when the
filtered frame is empty. -/
def detectar_eventos_baixa_umidade (xdf : XDF) (umidade_limite : ℚ)
    (dias_consecutivos : Nat) : List Evento :=
  ((profundidades.filter (colPresente xdf)).map fun prof =>
    periodos.map fun periodo =>
      let dfPeriodo := xdf.rows.filter fun x => decide (x.periodo = periodo)
      let marcado := marcarConsecutivo (eventoFlag prof umidade_limite) dfPeriodo
      Evento.mk prof periodo (filtrarConsecutivos dias_consecutivos marcado)).flatten

/-- Embedding of `df_eventos['Data'].max() - df_eventos['Data'].min()` in days:
pandas max/min skip NaT, and the difference is NaT (`none`) when no valid
date remains. -/
def dmaxOf (rows : List (XRow × Bool × Nat)) : Option Int :=
  match rows.filterMap (fun t => t.1.data.map epochDay) with
  | [] => none
  | d :: ds => some (ds.foldl max d - ds.foldl min d)

/-- One output row of `calcular_isv` (the real-valued `ISV` column is
computed from these integer fields by `isvFormula`). -/
structure Resultado where
  ano : Option Int
  prof : Nat
  periodo : String
  nver : Nat
  dmaxDays : Option Int
  dver : Nat
deriving DecidableEq

/-- Loop body of `calcular_isv`: skip an empty event frame (`continue`);
otherwise `nver = len(unique(Consecutivo))`,
`dmax = (Data.max() - Data.min()).days`, `dver = len(df_eventos)`,
`ano = AnoRef.iloc[0]`. -/
def resultadoDe (e : Evento) : Option Resultado :=
  match e.rows with
  | [] => none
  | r :: _ =>
      some (Resultado.mk r.1.anoRef e.prof e.periodo
        ((e.rows.map fun t => t.2.2).dedup.length)
        (dmaxOf e.rows)
        e.rows.length)

/-- Embedding of `calcular_isv`: one result row per non-empty event frame. -/
def calcular_isv (eventos : List Evento) : List Resultado :=
  eventos.filterMap resultadoDe

/-- The engine pipeline of `calcula_isv_por_ano_periodo` for one sheet:
`agrupar_por_data`, then `detectar_eventos_baixa_umidade`, then
`calcular_isv` (threshold and run length are the detector's parameters,
`0.360` and `4` by default). -/
def isvPipeline (df : DF) (umidade_limite : ℚ) (dias_consecutivos : Nat) :
    List Resultado :=
  calcular_isv (detectar_eventos_baixa_umidade (agrupar_por_data df)
    umidade_limite dias_consecutivos)

/-- Line 68: `isv = nver + ((1 / (1 + (0.0163 * dmax.days**2)**2.26))**0.17)
- 0.001 * dver`, in real arithmetic. -/
noncomputable def isvFormula (nver : Nat) (dmax : Int) (dver : Nat) : ℝ :=
  (nver : ℝ) + (1 / (1 + ((0.0163 : ℝ) * (dmax : ℝ) ^ (2 : ℕ)) ^ (2.26 : ℝ))) ^ (0.17 : ℝ)
    - (0.001 : ℝ) * (dver : ℝ)

/-- The `ISV` column of a result row (undefined, NaN-like, when `dmax` is
NaT). -/
noncomputable def Resultado.isv (r : Resultado) : Option ℝ :=
  r.dmaxDays.map fun d => isvFormula r.nver d r.dver

/-- Output row of `calcula_isv_por_ano_periodo`: a `Resultado` tagged with the
sheet name (`Origem` column). -/
structure ResultadoOrigem extends Resultado where
  origem : String
deriving DecidableEq

/-- Embedding of `calcula_isv_por_ano_periodo`: run the pipeline with the hard-coded
defaults `umidade_limite=0.360`, `dias_consecutivos=4`, tag rows with the
sheet name, and return `None` when no row was produced. -/
def calcula_isv_por_ano_periodo (df : DF) (nome_df : String) :
    Option (List ResultadoOrigem) :=
  let resultado := isvPipeline df (mkRat 360 1000) 4
  if resultado.isEmpty then none
  else some (resultado.map fun r => ⟨r, nome_df⟩)

/-- Embedding of `calcula_isv_varias_planilhas`: run every sheet, drop the `None`s and
concatenate; `None` when nothing was computable at all. -/
def calcula_isv_varias_planilhas (planilhas : List (String × DF)) :
    Option (List ResultadoOrigem) :=
  let resultados := planilhas.filterMap fun p => calcula_isv_por_ano_periodo p.2 p.1
  if resultados.isEmpty then none else some resultados.flatten

/-! ### Concrete inputs used by the claim theorems -/

/-- A row with a parseable date and a single `U20` reading. -/
def mkRow (y : Int) (m d : Nat) (u : ℚ) : Row :=
  ⟨some ⟨y, m, d⟩, some u, none, none⟩

/-- Nine daily `U20` readings in April 2021 (dry period) forming two
separate four-day below-threshold runs, days 1–4 and 6–9, split by an
above-threshold day 5. -/
def dfDoisEventos : DF :=
  ⟨[mkRow 2021 4 1 (mkRat 3 10), mkRow 2021 4 2 (mkRat 3 10),
    mkRow 2021 4 3 (mkRat 3 10), mkRow 2021 4 4 (mkRat 3 10),
    mkRow 2021 4 5 (mkRat 5 10), mkRow 2021 4 6 (mkRat 3 10),
    mkRow 2021 4 7 (mkRat 3 10), mkRow 2021 4 8 (mkRat 3 10),
    mkRow 2021 4 9 (mkRat 3 10)], true, true, true⟩

/-- Four below-threshold wet-period readings straddling a cycle-year
boundary: 30–31 March 2021 (cycle year 2020) directly followed by
1–2 October 2021 (cycle year 2021). -/
def dfViradaAno : DF :=
  ⟨[mkRow 2021 3 30 (mkRat 3 10), mkRow 2021 3 31 (mkRat 3 10),
    mkRow 2021 10 1 (mkRat 3 10), mkRow 2021 10 2 (mkRat 3 10)], true, true, true⟩

/-- Four days whose `U20` reading is exactly 0. -/
def dfZeros : DF :=
  ⟨[mkRow 2021 4 1 (mkRat 0 1), mkRow 2021 4 2 (mkRat 0 1),
    mkRow 2021 4 3 (mkRat 0 1), mkRow 2021 4 4 (mkRat 0 1)], true, true, true⟩

/-- Two below-threshold readings on the same calendar date. -/
def dfMesmaData : DF :=
  ⟨[mkRow 2021 4 1 (mkRat 3 10), mkRow 2021 4 1 (mkRat 3 10)], true, true, true⟩

/-- Three dated below-threshold readings followed by a row whose date failed
to parse (NaT) and whose reading is below threshold. -/
def dfSemData : DF :=
  ⟨[mkRow 2021 4 1 (mkRat 3 10), mkRow 2021 4 2 (mkRat 3 10),
    mkRow 2021 4 3 (mkRat 3 10), ⟨none, some (mkRat 3 10), none, none⟩],
   true, true, true⟩

/-- A single above-threshold dry-period reading: a non-empty partition with
zero qualifying events. -/
def dfSemEvento : DF :=
  ⟨[mkRow 2021 4 1 (mkRat 5 10)], true, true, true⟩

/-- The boolean flag sequence `[0,1,1,1,1,0,1,1,0]` of the run-detection
test vector. -/
def flagsExemplo : List Bool :=
  [false, true, true, true, true, false, true, true, false]

/-! ### Structure of the `Consecutivo` numbering -/

theorem marcarConsecutivoAux_map_fst (f : α → Bool) :
    ∀ (xs : List α) (pf : Bool) (g : Nat),
      (marcarConsecutivoAux f pf g xs).map (fun t => t.1) = xs := by
  intro xs
  induction xs with
  | nil => intro pf g; rfl
  | cons a rest ih => intro pf g; simp [marcarConsecutivoAux, ih]

theorem marcarConsecutivo_map_fst (f : α → Bool) (xs : List α) :
    (marcarConsecutivo f xs).map (fun t => t.1) = xs := by
  cases xs with
  | nil => rfl
  | cons a rest => simp [marcarConsecutivo, marcarConsecutivoAux_map_fst]

theorem marcarConsecutivoAux_map_flag (f : α → Bool) :
    ∀ (xs : List α) (pf : Bool) (g : Nat),
      (marcarConsecutivoAux f pf g xs).map (fun t => t.2.1) = xs.map f := by
  intro xs
  induction xs with
  | nil => intro pf g; rfl
  | cons a rest ih => intro pf g; simp [marcarConsecutivoAux, ih]

theorem marcarConsecutivo_map_flag (f : α → Bool) (xs : List α) :
    (marcarConsecutivo f xs).map (fun t => t.2.1) = xs.map f := by
  cases xs with
  | nil => rfl
  | cons a rest => simp [marcarConsecutivo, marcarConsecutivoAux_map_flag]

theorem marcarConsecutivoAux_chain (f : α → Bool) :
    ∀ (xs : List α) (p : α × Bool × Nat),
      List.Chain (fun a b => b.2.2 = if b.2.1 = a.2.1 then a.2.2 else a.2.2 + 1)
        p (marcarConsecutivoAux f p.2.1 p.2.2 xs) := by
  intro xs
  induction xs with
  | nil => intro p; exact List.Chain.nil
  | cons a rest ih =>
      intro p
      show List.Chain _ p ((a, f a, _) :: marcarConsecutivoAux f (f a) _ rest)
      exact List.Chain.cons rfl (ih (a, f a, if f a = p.2.1 then p.2.2 else p.2.2 + 1))

theorem marcarConsecutivo_chain (f : α → Bool) (xs : List α) :
    List.Chain' (fun a b => b.2.2 = if b.2.1 = a.2.1 then a.2.2 else a.2.2 + 1)
      (marcarConsecutivo f xs) := by
  cases xs with
  | nil => exact trivial
  | cons a rest => exact marcarConsecutivoAux_chain f rest (a, f a, 1)

/-! ### Claim theorems -/

/-- Claim C8: `detectar_eventos_baixa_umidade` segments the below-threshold
flag sequence into maximal runs of equal flags (the `Consecutivo` id of each
row follows its predecessor's id, staying equal exactly when the flag is
unchanged and incrementing at each flip) and keeps the runs of true flags of
length at least `dias_consecutivos`; on the flag sequence
`[0,1,1,1,1,0,1,1,0]` with minimum run length 4, exactly one qualifying
event is detected and its length is 4. -/
theorem c8_run_detection :
    (∀ (α : Type) (f : α → Bool) (xs : List α),
        (marcarConsecutivo f xs).map (fun t => t.1) = xs
      ∧ (marcarConsecutivo f xs).map (fun t => t.2.1) = xs.map f
      ∧ List.Chain' (fun a b => b.2.2 = if b.2.1 = a.2.1 then a.2.2 else a.2.2 + 1)
          (marcarConsecutivo f xs))
  ∧ (∀ (α : Type) (dias : Nat) (marcado : List (α × Bool × Nat))
        (t : α × Bool × Nat),
        t ∈ filtrarConsecutivos dias marcado ↔
          t ∈ marcado
        ∧ dias ≤ (marcado.filter fun s => decide (s.2.2 = t.2.2)).length
        ∧ ((marcado.filter fun s => decide (s.2.2 = t.2.2)).all
            fun s => s.2.1) = true)
  ∧ (filtrarConsecutivos 4 (marcarConsecutivo (fun b => b) flagsExemplo)).length = 4
  ∧ ((filtrarConsecutivos 4 (marcarConsecutivo (fun b => b) flagsExemplo)).map
      (fun t => t.2.2)).dedup.length = 1 :=
  ⟨fun _ f xs =>
    ⟨marcarConsecutivo_map_fst f xs, marcarConsecutivo_map_flag f xs,
      marcarConsecutivo_chain f xs⟩,
   fun _ dias marcado t => by
    simp [filtrarConsecutivos, List.mem_filter, Bool.and_eq_true,
      decide_eq_true_eq, and_assoc],
   by decide, by decide⟩

/-- Claim C7: the calendar classification of `agrupar_por_data` is a total
function of the date: January–March map to cycle year `calendarYear - 1`
and period `'Umido'`, October–December to cycle year `calendarYear` and
period `'Umido'`, and April–September to cycle year `calendarYear` and
period `'Seco'`. -/
theorem c7_classification (y : Int) (m dy : Nat) (u1 u2 u3 : Option ℚ)
    (h1 : 1 ≤ m) (h2 : m ≤ 12) :
    ((m = 1 ∨ m = 2 ∨ m = 3) →
        (agruparRow ⟨some ⟨y, m, dy⟩, u1, u2, u3⟩).anoRef = some (y - 1) ∧
        (agruparRow ⟨some ⟨y, m, dy⟩, u1, u2, u3⟩).periodo = "Umido")
  ∧ ((m = 10 ∨ m = 11 ∨ m = 12) →
        (agruparRow ⟨some ⟨y, m, dy⟩, u1, u2, u3⟩).anoRef = some y ∧
        (agruparRow ⟨some ⟨y, m, dy⟩, u1, u2, u3⟩).periodo = "Umido")
  ∧ (4 ≤ m → m ≤ 9 →
        (agruparRow ⟨some ⟨y, m, dy⟩, u1, u2, u3⟩).anoRef = some y ∧
        (agruparRow ⟨some ⟨y, m, dy⟩, u1, u2, u3⟩).periodo = "Seco") := by
  interval_cases m <;>
    simp [agruparRow, mesesUmido, mesesAnoAnterior]

/-- Witness for C7 at 15 February 2021: cycle year 2020, period `'Umido'`. -/
theorem c7_classification_witness :
    (agruparRow ⟨some ⟨2021, 2, 15⟩, none, none, none⟩).anoRef = some 2020 ∧
    (agruparRow ⟨some ⟨2021, 2, 15⟩, none, none, none⟩).periodo = "Umido" :=
  (c7_classification 2021 2 15 none none none (by decide) (by decide)).1
    (Or.inr (Or.inl rfl))

/-- Claim C9: holding `nver` and `dmax` fixed, the ISV formula of line 68 is
strictly decreasing in `dver`. -/
theorem c9_isv_decreasing_in_dver (nver : Nat) (dmax : Int) (v w : Nat)
    (h : v < w) : isvFormula nver dmax w < isvFormula nver dmax v := by
  unfold isvFormula
  have hc : (v : ℝ) < (w : ℝ) := by exact_mod_cast h
  linarith

/-- Witness for C9: with one event of span 3, ISV at `dver = 5` is below ISV
at `dver = 4`. -/
theorem c9_isv_decreasing_in_dver_witness :
    4 < 5 ∧ isvFormula 1 3 5 < isvFormula 1 3 4 :=
  ⟨by decide, c9_isv_decreasing_in_dver 1 3 4 5 (by decide)⟩

/-- Claim C6 counterexample: on a dataframe whose single (dry-period) record
is above threshold, the partition is non-empty but the pipeline emits no row
at all — there is no `nver = 0`, `ISV = 1.0` baseline row. -/
theorem c6_counterexample_no_baseline_row :
    isvPipeline dfSemEvento (mkRat 36 100) 4 = []
  ∧ ((agrupar_por_data dfSemEvento).rows.filter
      (fun x => decide (x.periodo = "Seco"))).length = 1 :=
  ⟨by decide, by decide⟩

/-- Claim C6 amended: a partition with zero qualifying events is skipped by
`calcular_isv` (no row is produced for it); the fixed term of the formula at
`nver = dmax = dver = 0` does evaluate to exactly 1, but no such row is ever
emitted. -/
theorem c6_amended_eventless_partition_skipped :
    (∀ (prof : Nat) (per : String) (rest : List Evento),
        calcular_isv (⟨prof, per, []⟩ :: rest) = calcular_isv rest)
  ∧ isvFormula 0 0 0 = 1 := by
  constructor
  · intro prof per rest
    simp [calcular_isv, resultadoDe]
  · have h0 : ((0 : ℝ)) ^ (2.26 : ℝ) = 0 := Real.zero_rpow (by norm_num)
    simp [isvFormula, h0, Real.one_rpow]

/-- Claim C1 (code bug, line 63): on `dfDoisEventos` — two qualifying events
of four days each, separated by one above-threshold day — every qualifying
`Consecutivo` group has exactly 4 rows, yet the emitted `dmax` is 8: the
code computes `Data.max() - Data.min()` over all qualifying rows (a date
span across events), not the length of the longest event, contradicting its
own comment `Duração do maior evento`. -/
theorem c1_dmax_is_date_span_not_longest_event :
    isvPipeline dfDoisEventos (mkRat 36 100) 4 =
      [⟨some 2021, 20, "Seco", 2, some 8, 8⟩]
  ∧ (detectar_eventos_baixa_umidade (agrupar_por_data dfDoisEventos)
      (mkRat 36 100) 4).map
        (fun e => (e.rows.map fun t => t.2.2).dedup.map
          (fun c => (e.rows.map fun t => t.2.2).count c)) =
      [[4, 4], [], [], [], [], []] :=
  ⟨by decide, by decide⟩

/-- Claim C2 counterexample: on `dfViradaAno`, the wet-period rows of cycle
year 2020 (March 2021) and of cycle year 2021 (October 2021) land in one
`Consecutivo` run (id 1) and form a single qualifying event, and the single
output row carries the first row's cycle year 2020 — detection is not
partitioned by cycle year. -/
theorem c2_counterexample_run_mixes_cycle_years :
    (detectar_eventos_baixa_umidade (agrupar_por_data dfViradaAno)
      (mkRat 36 100) 4).map
        (fun e => (e.prof, e.periodo, e.rows.map fun t => (t.1.anoRef, t.2.2))) =
      [(20, "Seco", []),
       (20, "Umido", [(some 2020, 1), (some 2020, 1), (some 2021, 1), (some 2021, 1)]),
       (40, "Seco", []), (40, "Umido", []), (60, "Seco", []), (60, "Umido", [])]
  ∧ isvPipeline dfViradaAno (mkRat 36 100) 4 =
      [⟨some 2020, 20, "Umido", 1, some 186, 4⟩] :=
  ⟨by decide, by decide⟩

/-- Claim C3 counterexample: a moisture value of exactly 0 is flagged as a
below-threshold reading (`0 < 0.360`), and four zero readings form a
qualifying drought event — zero is not treated as missing sensor data. -/
theorem c3_counterexample_zero_forms_event :
    eventoFlag 20 (mkRat 36 100) (agruparRow (mkRow 2021 4 1 (mkRat 0 1))) = true
  ∧ isvPipeline dfZeros (mkRat 36 100) 4 = [⟨some 2021, 20, "Seco", 1, some 3, 4⟩] :=
  ⟨by decide, by decide⟩

/-- Claim C3 amended: a moisture value of exactly 0 is kept as a true
reading; for any positive threshold it is counted as below threshold, so
zero readings can start, extend and belong to drought events (there is no
missing-data replacement of zeros anywhere in the pipeline). -/
theorem c3_amended_zero_is_true_reading (r : Row) (umidade_limite : ℚ)
    (h : 0 < umidade_limite) :
    eventoFlag 20 umidade_limite (agruparRow { r with u20 := some 0 }) = true
  ∧ eventoFlag 40 umidade_limite (agruparRow { r with u40 := some 0 }) = true
  ∧ eventoFlag 60 umidade_limite (agruparRow { r with u60 := some 0 }) = true := by
  refine ⟨?_, ?_, ?_⟩ <;> simp [eventoFlag, agruparRow, Row.getU, h]

/-- Witness for the amended C3 at the default threshold `0.360`. -/
theorem c3_amended_zero_is_true_reading_witness :
    0 < mkRat 36 100
  ∧ eventoFlag 20 (mkRat 36 100)
      (agruparRow { mkRow 2021 4 2 (mkRat 5 10) with u20 := some 0 }) = true
  ∧ eventoFlag 40 (mkRat 36 100)
      (agruparRow { mkRow 2021 4 2 (mkRat 5 10) with u40 := some 0 }) = true
  ∧ eventoFlag 60 (mkRat 36 100)
      (agruparRow { mkRow 2021 4 2 (mkRat 5 10) with u60 := some 0 }) = true :=
  ⟨by decide,
   c3_amended_zero_is_true_reading (mkRow 2021 4 2 (mkRat 5 10)) (mkRat 36 100)
     (by decide)⟩

/-- Claim C4 counterexample: two readings on the same calendar date stay two
separate records after `agrupar_por_data`, and with minimum run length 2
they form a qualifying event with `dver = 2` — they are not collapsed into
one daily-mean record (which would have left a single record and no
qualifying event). -/
theorem c4_counterexample_same_date_not_collapsed :
    (agrupar_por_data dfMesmaData).rows.map (fun x => x.data) =
      [some ⟨2021, 4, 1⟩, some ⟨2021, 4, 1⟩]
  ∧ isvPipeline dfMesmaData (mkRat 36 100) 2 =
      [⟨some 2021, 20, "Seco", 1, some 0, 2⟩] :=
  ⟨by decide, by decide⟩

/-- Claim C4 amended: the pipeline performs no daily aggregation at all:
`agrupar_por_data` is row-wise (it only adds the month / year / period /
cycle-year columns), so every input row — including several readings of one
calendar date, and rows with a missing moisture cell — remains a separate
record for event detection. -/
theorem c4_amended_no_daily_aggregation (df : DF) :
    (agrupar_por_data df).rows.map XRow.toRow = df.rows
  ∧ (agrupar_por_data df).rows.length = df.rows.length := by
  constructor
  · have h : ∀ r : Row, XRow.toRow (agruparRow r) = r := fun r => rfl
    simp [agrupar_por_data, List.map_map, Function.comp_def, h]
  · simp [agrupar_por_data]

/-- Claim C5 counterexample: a row whose date failed to parse (NaT) is not
dropped: on `dfSemData` it is classified into period `'Seco'`, joins the
run of the three dated rows, belongs to the single qualifying event (rows
`[some 1 Apr, some 2 Apr, some 3 Apr, none]`) and is counted in
`dver = 4`. -/
theorem c5_counterexample_unparseable_row_kept :
    (detectar_eventos_baixa_umidade (agrupar_por_data dfSemData)
      (mkRat 36 100) 4).map
        (fun e => (e.prof, e.periodo, e.rows.map fun t => t.1.data)) =
      [(20, "Seco",
        [some ⟨2021, 4, 1⟩, some ⟨2021, 4, 2⟩, some ⟨2021, 4, 3⟩, none]),
       (20, "Umido", []), (40, "Seco", []), (40, "Umido", []),
       (60, "Seco", []), (60, "Umido", [])]
  ∧ isvPipeline dfSemData (mkRat 36 100) 4 =
      [⟨some 2021, 20, "Seco", 1, some 2, 4⟩] :=
  ⟨by decide, by decide⟩

/-- Claim C5 amended: a row with an unparseable date is kept, not dropped:
its coerced NaT date gives a missing month and year, so it is classified
into period `'Seco'` with a missing cycle year, and it still takes part in
event detection and in the `dver` count there (its moisture is compared to
the threshold like any other row); only the `dmax` date span skips it. -/
theorem c5_amended_unparseable_rows_kept (r : Row) :
    (agruparRow { r with data := none }).periodo = "Seco"
  ∧ (agruparRow { r with data := none }).anoRef = none
  ∧ (agruparRow { r with data := none }).mes = none :=
  ⟨rfl, rfl, rfl⟩

/-! ### Structure of the qualifying-group filter -/

theorem count_eq_length_filter_eq [DecidableEq β] (l : List β) (c : β) :
    l.count c = (l.filter (fun x => decide (x = c))).length := by
  induction l with
  | nil => rfl
  | cons a rest ih =>
      by_cases h : a = c <;> simp [List.count_cons, List.filter_cons, h, ih]

theorem sum_count_toFinset [DecidableEq β] (l : List β) :
    ∑ c ∈ l.toFinset, l.count c = l.length := by
  have h := Multiset.toFinset_sum_count_eq (l : Multiset β)
  simp only [Multiset.coe_count, Multiset.coe_card] at h
  exact h

theorem dedup_length_mul_le_length [DecidableEq β] (l : List β) (k : Nat)
    (h : ∀ b ∈ l, k ≤ l.count b) : l.dedup.length * k ≤ l.length := by
  have h1 : l.toFinset.card • k ≤ ∑ c ∈ l.toFinset, l.count c :=
    Finset.card_nsmul_le_sum _ _ _ fun c hc => h c (List.mem_toFinset.mp hc)
  rw [sum_count_toFinset] at h1
  simpa [List.card_toFinset, smul_eq_mul] using h1

theorem filtrar_group_full (dias : Nat) (marcado : List (α × Bool × Nat))
    (t : α × Bool × Nat) (ht : t ∈ filtrarConsecutivos dias marcado) :
    (filtrarConsecutivos dias marcado).filter (fun s => decide (s.2.2 = t.2.2)) =
      marcado.filter (fun s => decide (s.2.2 = t.2.2)) := by
  unfold filtrarConsecutivos at ht ⊢
  rw [List.filter_filter]
  refine List.filter_congr ?_
  intro a _
  by_cases hq : a.2.2 = t.2.2
  · have hgr :
        (marcado.filter fun s => decide (s.2.2 = a.2.2)) =
          marcado.filter fun s => decide (s.2.2 = t.2.2) := by
      simp only [hq]
    have hPt := (List.mem_filter.mp ht).2
    have hq2 : decide (a.2.2 = t.2.2) = true := decide_eq_true hq
    simp only [hq, hgr, hPt, hq2, Bool.and_true, Bool.true_and]
  · simp [hq]

theorem filtrar_group_ge (dias : Nat) (marcado : List (α × Bool × Nat))
    (t : α × Bool × Nat) (ht : t ∈ filtrarConsecutivos dias marcado) :
    dias ≤ ((filtrarConsecutivos dias marcado).filter
      (fun s => decide (s.2.2 = t.2.2))).length := by
  rw [filtrar_group_full dias marcado t ht]
  have hPt := (List.mem_filter.mp (by unfold filtrarConsecutivos at ht; exact ht)).2
  have h1 := (Bool.and_eq_true _ _).mp hPt
  exact of_decide_eq_true h1.1

theorem filtrar_bound (dias : Nat) (marcado kept : List (α × Bool × Nat))
    (hk : kept = filtrarConsecutivos dias marcado) (hne : kept ≠ []) :
    1 ≤ ((kept.map fun t => t.2.2).dedup.length)
  ∧ ((kept.map fun t => t.2.2).dedup.length) * dias ≤ kept.length := by
  constructor
  · rw [Nat.one_le_iff_ne_zero]
    intro h0
    exact hne (by
      have := (List.dedup_eq_nil _).mp (List.length_eq_zero.mp h0)
      simpa using List.map_eq_nil_iff.mp this)
  · have hcount : ∀ c ∈ kept.map fun t => t.2.2,
        dias ≤ (kept.map fun t => t.2.2).count c := by
      intro c hc
      obtain ⟨t, ht, rfl⟩ := List.mem_map.mp hc
      rw [count_eq_length_filter_eq, List.filter_map]
      rw [List.length_map]
      have hle := filtrar_group_ge dias marcado t (hk ▸ ht)
      rw [← hk] at hle
      simpa [Function.comp_def] using hle
    have := dedup_length_mul_le_length (kept.map fun t => t.2.2) dias hcount
    simpa [List.length_map] using this

theorem detectar_rows_shape (xdf : XDF) (umidade_limite : ℚ) (dias : Nat)
    (e : Evento) (he : e ∈ detectar_eventos_baixa_umidade xdf umidade_limite dias) :
    ∃ f l, e.rows = filtrarConsecutivos dias (marcarConsecutivo f l) := by
  unfold detectar_eventos_baixa_umidade at he
  rw [List.mem_flatten] at he
  obtain ⟨inner, hin, hein⟩ := he
  rw [List.mem_map] at hin
  obtain ⟨prof, _, rfl⟩ := hin
  rw [List.mem_map] at hein
  obtain ⟨per, _, rfl⟩ := hein
  exact ⟨_, _, rfl⟩

/-- Claim C10: every emitted result row has `nver ≥ 1` (only non-empty
qualifying-event frames produce a row) and
`dver ≥ nver * dias_consecutivos` (every counted `Consecutivo` group kept
by the filter has at least `dias_consecutivos` rows, all of which are
kept). -/
theorem c10_emitted_row_bounds (df : DF) (umidade_limite : ℚ)
    (dias_consecutivos : Nat) (r : Resultado)
    (hr : r ∈ isvPipeline df umidade_limite dias_consecutivos) :
    1 ≤ r.nver ∧ r.nver * dias_consecutivos ≤ r.dver := by
  unfold isvPipeline calcular_isv at hr
  rw [List.mem_filterMap] at hr
  obtain ⟨e, he, hre⟩ := hr
  obtain ⟨f, l, hrows⟩ := detectar_rows_shape _ _ _ e he
  unfold resultadoDe at hre
  cases hrowsE : e.rows with
  | nil => rw [hrowsE] at hre; cases hre
  | cons a rest =>
      rw [hrowsE] at hre
      have hb := filtrar_bound dias_consecutivos (marcarConsecutivo f l)
        e.rows hrows (by rw [hrowsE]; simp)
      rw [hrowsE] at hb
      simp only [Option.some.injEq] at hre
      rw [← hre]
      exact hb

/-- Witness for C10 on `dfDoisEventos`: the emitted row has `nver = 2`,
`dver = 8` with `dias_consecutivos = 4`. -/
theorem c10_emitted_row_bounds_witness : 1 ≤ 2 ∧ 2 * 4 ≤ 8 :=
  c10_emitted_row_bounds dfDoisEventos (mkRat 36 100) 4
    ⟨some 2021, 20, "Seco", 2, some 8, 8⟩ (by decide)

/-! ### Keys of the output rows -/

theorem resultadoDe_keys (e : Evento) (r : Resultado)
    (h : resultadoDe e = some r) : r.prof = e.prof ∧ r.periodo = e.periodo := by
  unfold resultadoDe at h
  cases hrows : e.rows with
  | nil => rw [hrows] at h; cases h
  | cons a rest =>
      rw [hrows] at h
      simp only [Option.some.injEq] at h
      rw [← h]
      exact ⟨rfl, rfl⟩

theorem pairwise_filterMap_of_pairwise {f : β → Option γ}
    {R : β → β → Prop} {S : γ → γ → Prop}
    (hf : ∀ a b ra rb, f a = some ra → f b = some rb → R a b → S ra rb) :
    ∀ {l : List β}, l.Pairwise R → (l.filterMap f).Pairwise S := by
  intro l hl
  induction hl with
  | nil => simp
  | @cons a rest ha _ ih =>
      rw [List.filterMap_cons]
      cases hfa : f a with
      | none => exact ih
      | some ra =>
          refine List.Pairwise.cons ?_ ih
          intro rb hrb
          obtain ⟨b, hb, hfb⟩ := List.mem_filterMap.mp hrb
          exact hf a b ra rb hfa hfb (ha b hb)

theorem detectar_pairwise_key (xdf : XDF) (umidade_limite : ℚ) (dias : Nat) :
    (detectar_eventos_baixa_umidade xdf umidade_limite dias).Pairwise
      (fun a b => ¬(a.prof = b.prof ∧ a.periodo = b.periodo)) := by
  unfold detectar_eventos_baixa_umidade
  rw [List.pairwise_flatten]
  constructor
  · intro l hl
    obtain ⟨prof, _, rfl⟩ := List.mem_map.mp hl
    rw [List.pairwise_map]
    show List.Pairwise _ ["Seco", "Umido"]
    refine List.Pairwise.cons ?_
      (List.Pairwise.cons (fun x hx => absurd hx (List.not_mem_nil x))
        List.Pairwise.nil)
    intro x hx h
    rw [List.mem_singleton] at hx
    subst hx
    have hs : "Seco" = "Umido" := h.2
    exact absurd hs (by decide)
  · rw [List.pairwise_map]
    have hnodup : (profundidades.filter (colPresente xdf)).Pairwise (· ≠ ·) :=
      List.Nodup.filter _ (by decide)
    refine hnodup.imp ?_
    intro p q hpq x hx y hy hkey
    obtain ⟨_, _, rfl⟩ := List.mem_map.mp hx
    obtain ⟨_, _, rfl⟩ := List.mem_map.mp hy
    exact hpq hkey.1

/-- Claim C2 amended: detection and ISV computation are partitioned only by
depth column and period (all cycle years pooled), so the output never
contains two rows with the same (depth, period) pair — at most one row per
(site, depth, period), not one per cycle year. -/
theorem c2_amended_one_row_per_depth_period (df : DF) (umidade_limite : ℚ)
    (dias_consecutivos : Nat) :
    (isvPipeline df umidade_limite dias_consecutivos).Pairwise
      (fun r s => ¬(r.prof = s.prof ∧ r.periodo = s.periodo)) := by
  unfold isvPipeline calcular_isv
  refine pairwise_filterMap_of_pairwise ?_ (detectar_pairwise_key _ _ _)
  intro a b ra rb hfa hfb hR hkey
  obtain ⟨hpa, hqa⟩ := resultadoDe_keys a ra hfa
  obtain ⟨hpb, hqb⟩ := resultadoDe_keys b rb hfb
  exact hR ⟨by rw [← hpa, ← hpb]; exact hkey.1, by rw [← hqa, ← hqb]; exact hkey.2⟩
